import Mathlib

/-!
Verification development for the InputControl state reducer
(`packages/components/src/input-control/reducer/reducer.ts`).

The embedding is shallow: the TypeScript `InputState` record becomes a Lean
structure, the tagged action union becomes an inductive type, and the reducer
body is translated branch by branch.  JavaScript `string | undefined` values
are modelled as `Option String` (`none` = `undefined`); the opaque `error`
payload is modelled as `Option String` as well (`none` = `null`/absent).
Template-literal stringification of a value that is already a string is the
identity, which is noted where the source performs it.
-/

namespace InputControl

/-- The widget state, `InputState` from `state.ts` as used by `reducer.ts`.
`value` and `initialValue` are nullable strings; `error` holds the last
validation failure or is absent. -/
structure InputState where
  value : Option String
  initialValue : Option String
  isDirty : Bool
  isDragging : Bool
  error : Option String
  isPressEnterToChange : Bool
deriving DecidableEq, Repr

/-- The action vocabulary of `actions.ts` as consumed by the reducer: the
tagged variants (`PRESS_UP`, `PRESS_DOWN`, `PRESS_ENTER`, `DRAG_START`,
`DRAG`, `DRAG_END`, `CHANGE`, `COMMIT`, `RESET`, `INVALIDATE`) plus the
untagged direct value assignment (`dispatch( { value } )`, an action object
with no `type` field).  Each constructor carries only the payload field the
reducer reads (event handles are tracked by the controller, not the
reducer). -/
inductive Action where
  | pressUp
  | pressDown
  | pressEnter
  | dragStart
  | drag
  | dragEnd
  | change (value : Option String)
  | commit (value : Option String)
  | reset (value : Option String)
  | invalidate (error : String)
  | untagged (value : Option String)
deriving DecidableEq, Repr

/-- Whether the action object has a `type` field (`'type' in action`). -/
def Action.isTagged : Action → Bool
  | .untagged _ => false
  | _ => true

/-- Whether the tagged action's type has a `case` in the reducer's `switch`
statement.  `PRESS_ENTER` and `DRAG` are in the vocabulary but have no case,
so they fall through with the state copy unmodified. -/
def Action.hasSwitchCase : Action → Bool
  | .pressUp | .pressDown | .dragStart | .dragEnd
  | .change _ | .commit _ | .reset _ | .invalidate _ => true
  | .pressEnter | .drag | .untagged _ => false

/-- `StateReducer` from `state.ts`: a function from state and action to the
next state. -/
def StateReducer : Type := InputState → Action → InputState

/-- Modelled from the spec: `initialStateReducer` lives in the missing
`state.ts`; the spec fixes it as "The default override is the identity
function". -/
def initialStateReducer : StateReducer := fun state _ => state

/-- Modelled from the spec: `initialInputControlState` lives in the missing
`state.ts`.  The spec lists the defaults: `isPressEnterToChange` inactive,
`isDirty` and `isDragging` false, `error` absent, `value` nullable with no
default given (modelled as absent). -/
def initialInputControlState : InputState :=
  { value := none
    initialValue := none
    isDirty := false
    isDragging := false
    error := none
    isPressEnterToChange := false }

/-- `Partial< InputState >`: every field optional (outer `none` = the field
is absent from the configuration object). -/
structure PartialInputState where
  value : Option (Option String) := none
  initialValue : Option (Option String) := none
  isDirty : Option Bool := none
  isDragging : Option Bool := none
  error : Option (Option String) := none
  isPressEnterToChange : Option Bool := none
deriving DecidableEq, Repr

/-- `mergeInitialState` from `reducer.ts`: spread the defaults, then the
supplied partial state over them, then overwrite `initialValue` with the
partial state's `value` field (absent when that field is absent) — so a
supplied `initialValue` field is ignored. -/
def mergeInitialState (initialState : PartialInputState) : InputState :=
  { value := initialState.value.getD initialInputControlState.value
    initialValue := initialState.value.getD none
    isDirty := initialState.isDirty.getD initialInputControlState.isDirty
    isDragging := initialState.isDragging.getD initialInputControlState.isDragging
    error := initialState.error.getD initialInputControlState.error
    isPressEnterToChange :=
      initialState.isPressEnterToChange.getD
        initialInputControlState.isPressEnterToChange }

/-- The early-return path of the reducer for an action with no `type` field:
`let { value = state.value } = action` (destructuring default: an
`undefined` payload value falls back to the state's value), `value ??= ''`
(a still-nullish value becomes the empty string), and the template-literal
stringification of a non-empty value, which is the identity on strings.
Only `value` is replaced; every other field is copied. -/
def untaggedAssign (state : InputState) (v : Option String) : InputState :=
  let value := match v with
    | none => state.value
    | some x => some x
  let value := value.getD ""
  { state with value := some value }

/-- The `switch ( action.type )` body of `inputControlStateReducer`, acting
on `nextState = { ...state }`.  Tags without a case (`PRESS_ENTER`, `DRAG`)
leave the copy unmodified; the untagged constructor never reaches the switch
(the reducer returns early) and is mapped to the unmodified copy for
totality. -/
def baseTransition (state : InputState) (action : Action) : InputState :=
  match action with
  | .pressUp => { state with isDirty := false }
  | .pressDown => { state with isDirty := false }
  | .dragStart => { state with isDragging := true }
  | .dragEnd => { state with isDragging := false }
  | .change v =>
      let nextState := { state with error := none, value := v }
      if state.isPressEnterToChange then { nextState with isDirty := true }
      else nextState
  | .commit v => { state with value := v, isDirty := false }
  | .reset v =>
      { state with
          error := none
          isDirty := false
          value := match v with
            | some x => some x
            | none => state.initialValue }
  | .invalidate e => { state with error := some e }
  | .pressEnter => state
  | .drag => state
  | .untagged _ => state

/-- `inputControlStateReducer` from `reducer.ts`: an action with no `type`
field takes the early-return direct-assignment path with no exposure to the
composed reducers; a tagged action runs the switch on the state copy and the
result is then sent, together with the action, to `composedStateReducers`. -/
def inputControlStateReducer (composedStateReducers : StateReducer) :
    StateReducer :=
  fun state action =>
    match action with
    | .untagged v => untaggedAssign state v
    | _ => composedStateReducers (baseTransition state action) action

/-- The controller's mutable refs as observed between renders:
`refEvent.current` (whether an originating event handle is recorded),
and the previously observed values of the two layout-effect dependencies,
`state.value` and the external value prop `initialState.value`. -/
structure ControllerRefs where
  refEvent : Bool
  lastStateValue : Option String
  lastProp : Option String
deriving DecidableEq, Repr

/-- Outcome of one post-render synchronization pass of
`useInputControlStateReducer`. -/
structure SyncOutcome where
  fired : Bool
  firedValue : String
  resync : Bool
  state : InputState
  refs : ControllerRefs
deriving DecidableEq, Repr

/-- One post-render pass of the three layout effects of
`useInputControlStateReducer`, run in declaration order:

1. the dependency-free effect stores the current state and current value
   prop into `currentState` / `currentValueProp`;
2. the `[ state.value ]` effect runs when `state.value` changed since the
   last observed render; it invokes `onChangeHandler( state.value ?? '' )`
   and clears `refEvent` when an event is recorded, `state.value` differs
   from `currentValueProp.current` (the current prop, effect 1 ran first)
   and the current state is not dirty;
3. the `[ initialState.value ]` effect runs when the value prop changed
   since the last observed render; it dispatches the untagged assignment
   `dispatch( { value: initialState.value } )` when no event is recorded
   (after any clearing by effect 2), the prop differs from the current
   state's value, and the current state is not dirty.

`fired` / `firedValue` record the callback invocation, `resync` the
untagged dispatch, `state` the state after any resync dispatch, and `refs`
the refs afterwards (dependencies now set to the observed values). -/
def syncStep (state : InputState) (prop : Option String)
    (refs : ControllerRefs) : SyncOutcome :=
  let valueDepChanged := decide (state.value ≠ refs.lastStateValue)
  let fired := valueDepChanged && refs.refEvent
      && decide (state.value ≠ prop) && !state.isDirty
  let refEvent2 := if fired then false else refs.refEvent
  let propDepChanged := decide (prop ≠ refs.lastProp)
  let resync := propDepChanged && !refEvent2
      && decide (prop ≠ state.value) && !state.isDirty
  { fired := fired
    firedValue := if fired then state.value.getD "" else ""
    resync := resync
    state := if resync then untaggedAssign state prop else state
    refs :=
      { refEvent := refEvent2
        lastStateValue := state.value
        lastProp := prop } }

/-- Accumulating decimal parse over a character list; fails on the first
non-digit character. -/
def digitsToNat (cs : List Char) (acc : Nat) : Option Nat :=
  match cs with
  | [] => some acc
  | c :: rest =>
      if c.isDigit then digitsToNat rest (acc * 10 + (c.toNat - 48)) else none

/-- Decimal parse of a string: at least one character, all digits. -/
def parseNumeric (s : String) : Option Nat :=
  match s.data with
  | [] => none
  | cs => digitsToNat cs 0

/-- Example override used by the spec's end-to-end scenario 4: clamp a
numeric value to the interval `[0, 100]`; a non-numeric or absent value is
left alone. -/
def clampReducer : StateReducer := fun state _ =>
  match state.value with
  | some v =>
      match parseNumeric v with
      | some n => { state with value := some (toString (min n 100)) }
      | none => state
  | none => state

end InputControl

namespace InputControl

/-- Helper: every dispatched action (with the default override) leaves the
captured `initialValue` untouched. -/
theorem reducer_preserves_initialValue (s : InputState) (a : Action) :
    (inputControlStateReducer initialStateReducer s a).initialValue
      = s.initialValue := by
  cases a <;> try rfl
  case change v =>
    by_cases h : s.isPressEnterToChange <;>
      simp [inputControlStateReducer, baseTransition, initialStateReducer, h]

/-- Helper: a sequence of dispatched `change` actions leaves `initialValue`
untouched. -/
theorem foldl_change_preserves_initialValue (s : InputState)
    (vs : List (Option String)) :
    (vs.foldl
        (fun st v => inputControlStateReducer initialStateReducer st (.change v))
        s).initialValue = s.initialValue := by
  induction vs generalizing s with
  | nil => rfl
  | cons v vs ih =>
      rw [List.foldl_cons, ih, reducer_preserves_initialValue]

/-- C1: for every state and tagged action the composed reducer is the
override applied to the post-base-transition state (never the reverse);
with the default identity override it is exactly the base transition; and in
the clamping scenario, `change("150")` yields post-base value `"150"` and
post-override value `"100"`. -/
theorem C1_override_after_base :
    (∀ (f : StateReducer) (s : InputState) (a : Action), a.isTagged = true →
        inputControlStateReducer f s a = f (baseTransition s a) a)
    ∧ (∀ (s : InputState) (a : Action), a.isTagged = true →
        inputControlStateReducer initialStateReducer s a = baseTransition s a)
    ∧ ((baseTransition (mergeInitialState { value := some (some "50") })
          (.change (some "150"))).value = some "150"
      ∧ (inputControlStateReducer clampReducer
          (mergeInitialState { value := some (some "50") })
          (.change (some "150"))).value = some "100") := by
  refine ⟨?_, ?_, by decide, by decide⟩
  · intro f s a h
    cases a <;> first | rfl | simp [Action.isTagged] at h
  · intro s a h
    cases a <;> first | rfl | simp [Action.isTagged] at h

/-- Closed instance of C1 at the `PRESS_UP` action, discharging the
taggedness hypotheses. -/
theorem C1_override_after_base_witness :
    inputControlStateReducer initialStateReducer (mergeInitialState {}) .pressUp
      = baseTransition (mergeInitialState {}) .pressUp
    ∧ inputControlStateReducer clampReducer (mergeInitialState {}) .pressUp
      = clampReducer (baseTransition (mergeInitialState {}) .pressUp) .pressUp :=
  ⟨C1_override_after_base.2.1 (mergeInitialState {}) .pressUp rfl,
    C1_override_after_base.1 clampReducer (mergeInitialState {}) .pressUp rfl⟩

/-- C2: `change` clears `error`, sets `value` to the payload value, and sets
`isDirty` to true exactly when `isPressEnterToChange` is active (otherwise
`isDirty` is left as in the input state); on a fresh default state,
`change("abc")` yields value `"abc"`, `isDirty` false, `error` absent. -/
theorem C2_change :
    (∀ (s : InputState) (v : Option String),
        (baseTransition s (.change v)).error = none
        ∧ (baseTransition s (.change v)).value = v
        ∧ (baseTransition s (.change v)).isDirty =
            (if s.isPressEnterToChange then true else s.isDirty))
    ∧ ((inputControlStateReducer initialStateReducer (mergeInitialState {})
          (.change (some "abc"))).value = some "abc"
      ∧ (inputControlStateReducer initialStateReducer (mergeInitialState {})
          (.change (some "abc"))).isDirty = false
      ∧ (inputControlStateReducer initialStateReducer (mergeInitialState {})
          (.change (some "abc"))).error = none) := by
  refine ⟨fun s v => ?_, by decide⟩
  by_cases h : s.isPressEnterToChange <;> simp [baseTransition, h]

/-- C3: `commit` is idempotent — dispatching it twice with the same payload
yields the same final state as dispatching it once, and both resulting
states have `isDirty = false` and `value` equal to the payload. -/
theorem C3_commit_idempotent :
    ∀ (s : InputState) (v : Option String),
      inputControlStateReducer initialStateReducer
          (inputControlStateReducer initialStateReducer s (.commit v))
          (.commit v)
        = inputControlStateReducer initialStateReducer s (.commit v)
      ∧ (inputControlStateReducer initialStateReducer s (.commit v)).isDirty
          = false
      ∧ (inputControlStateReducer initialStateReducer s (.commit v)).value = v :=
  fun _ _ => ⟨rfl, rfl, rfl⟩

/-- C4: `reset` clears `error` and `isDirty` and sets `value` to the payload
value when provided, else to `initialValue`; `mergeInitialState` captures
`initialValue` from the seed `value`; every dispatched action preserves
`initialValue`; hence `reset` with no payload restores the construction-time
`initialValue` regardless of intervening `change` actions. -/
theorem C4_reset :
    (∀ (s : InputState) (v : Option String),
        (baseTransition s (.reset v)).error = none
        ∧ (baseTransition s (.reset v)).isDirty = false
        ∧ (baseTransition s (.reset v)).value =
            (match v with | some x => some x | none => s.initialValue))
    ∧ (∀ (p : PartialInputState),
        (mergeInitialState p).initialValue = p.value.getD none)
    ∧ (∀ (s : InputState) (a : Action),
        (inputControlStateReducer initialStateReducer s a).initialValue
          = s.initialValue)
    ∧ (∀ (p : PartialInputState) (vs : List (Option String)),
        (baseTransition
            (vs.foldl
              (fun st v =>
                inputControlStateReducer initialStateReducer st (.change v))
              (mergeInitialState p))
            (.reset none)).value
          = (mergeInitialState p).initialValue) := by
  refine ⟨fun s v => ⟨rfl, rfl, rfl⟩, fun p => rfl,
    reducer_preserves_initialValue, fun p vs => ?_⟩
  exact foldl_change_preserves_initialValue (mergeInitialState p) vs

/-- C5: `invalidate` sets `error` to the payload error and leaves both
`value` and `isDirty` unchanged. -/
theorem C5_invalidate :
    ∀ (s : InputState) (e : String),
      (baseTransition s (.invalidate e)).error = some e
      ∧ (baseTransition s (.invalidate e)).value = s.value
      ∧ (baseTransition s (.invalidate e)).isDirty = s.isDirty :=
  fun _ _ => ⟨rfl, rfl, rfl⟩

/-- C6: an untagged direct value assignment bypasses the switch and the
override hook entirely (the result never depends on the override), copies
the state, coerces the incoming value to a string — an empty-string input is
preserved as `""`, a non-empty string is stringified to itself, and an
absent value falls back to the current state's value (a nullish fallback
becoming `""`) — and leaves `isDirty` and `error` (and every other field)
unchanged. -/
theorem C6_untagged_assignment :
    (∀ (f : StateReducer) (s : InputState) (v : Option String),
        inputControlStateReducer f s (.untagged v) = untaggedAssign s v)
    ∧ (∀ (s : InputState) (v : Option String),
        (untaggedAssign s v).value =
          some ((match v with | none => s.value | some x => some x).getD "")
        ∧ (untaggedAssign s v).isDirty = s.isDirty
        ∧ (untaggedAssign s v).error = s.error
        ∧ (untaggedAssign s v).isDragging = s.isDragging
        ∧ (untaggedAssign s v).initialValue = s.initialValue
        ∧ (untaggedAssign s v).isPressEnterToChange = s.isPressEnterToChange)
    ∧ (∀ (s : InputState), (untaggedAssign s (some "")).value = some "")
    ∧ (∀ (s : InputState) (t : String), (untaggedAssign s (some t)).value = some t)
    ∧ (∀ (s : InputState), (untaggedAssign s none).value = some (s.value.getD "")) :=
  ⟨fun _ _ _ => rfl, fun _ _ => ⟨rfl, rfl, rfl, rfl, rfl, rfl⟩,
    fun _ => rfl, fun _ _ => rfl, fun _ => rfl⟩

/-- C7: the reducer is a total Lean function over all states and actions (no
exception path exists in the embedding), and a tagged action whose type has
no case in the switch (`PRESS_ENTER`, `DRAG`) is an identity transition: the
result is the unmodified copy of the state. -/
theorem C7_unrecognized_noop :
    ∀ (s : InputState) (a : Action), a.isTagged = true →
      a.hasSwitchCase = false →
      inputControlStateReducer initialStateReducer s a = s := by
  intro s a h1 h2
  cases a <;>
    first
      | rfl
      | simp [Action.isTagged, Action.hasSwitchCase] at h1 h2

/-- Closed instance of C7 at the `PRESS_ENTER` action. -/
theorem C7_unrecognized_noop_witness :
    inputControlStateReducer initialStateReducer (mergeInitialState {})
        .pressEnter
      = mergeInitialState {} :=
  C7_unrecognized_noop (mergeInitialState {}) .pressEnter rfl rfl

/-- C9: from a dirty state, `key-up`, `key-down` and `commit` all clear
`isDirty`, whereas `change` leaves the state dirty when
`isPressEnterToChange` is active. -/
theorem C9_dirty_resolution :
    ∀ (s : InputState) (v : Option String), s.isDirty = true →
      (baseTransition s .pressUp).isDirty = false
      ∧ (baseTransition s .pressDown).isDirty = false
      ∧ (baseTransition s (.commit v)).isDirty = false
      ∧ (s.isPressEnterToChange = true →
          (baseTransition s (.change v)).isDirty = true) := by
  intro s v _h
  refine ⟨rfl, rfl, rfl, fun hp => ?_⟩
  simp [baseTransition, hp]

/-- Concrete state used by the C9 witness: dirty, commit-on-enter active. -/
def c9state : InputState :=
  { value := some "1"
    initialValue := some "10"
    isDirty := true
    isDragging := false
    error := none
    isPressEnterToChange := true }

/-- Closed instance of C9 on a dirty state with `isPressEnterToChange`
active. -/
theorem C9_dirty_resolution_witness :
    (baseTransition c9state .pressUp).isDirty = false
    ∧ (baseTransition c9state (.change (some "2"))).isDirty = true :=
  ⟨(C9_dirty_resolution c9state (some "2") rfl).1,
    (C9_dirty_resolution c9state (some "2") rfl).2.2.2 rfl⟩

/-- C10: the base transition for `commit` leaves `error` exactly as in the
input state; among the tagged transitions only `change` and `reset` clear
`error` (and `invalidate` sets it), the remaining cases preserve it. -/
theorem C10_commit_preserves_error :
    (∀ (s : InputState) (v : Option String),
        (baseTransition s (.commit v)).error = s.error)
    ∧ (∀ (s : InputState) (v : Option String),
        (baseTransition s (.change v)).error = none
        ∧ (baseTransition s (.reset v)).error = none)
    ∧ (∀ (s : InputState),
        (baseTransition s .pressUp).error = s.error
        ∧ (baseTransition s .pressDown).error = s.error
        ∧ (baseTransition s .dragStart).error = s.error
        ∧ (baseTransition s .dragEnd).error = s.error
        ∧ (baseTransition s .pressEnter).error = s.error
        ∧ (baseTransition s .drag).error = s.error) := by
  refine ⟨fun s v => rfl, fun s v => ⟨?_, rfl⟩,
    fun s => ⟨rfl, rfl, rfl, rfl, rfl, rfl⟩⟩
  by_cases h : s.isPressEnterToChange <;> simp [baseTransition, h]

end InputControl

namespace InputControl

/-- Concrete state for the C8 counterexample: value settled at `"10"`, not
dirty. -/
def c8state : InputState :=
  { value := some "10"
    initialValue := some "5"
    isDirty := false
    isDragging := false
    error := none
    isPressEnterToChange := false }

/-- Concrete refs for the C8 counterexample: an originating event is
recorded, the internal value changed since the last observed render (from
`"5"` to `"10"`), and the external value prop is `"10"`. -/
def c8refs : ControllerRefs :=
  { refEvent := true
    lastStateValue := some "5"
    lastProp := some "10" }

/-- C8 counterexample: the internal value changed since the last observed
render, an originating event was recorded and the widget is not dirty, yet
the change callback is not invoked — the synchronization effect additionally
requires the internal value to differ from the externally supplied value
prop, and here both are `"10"`. -/
theorem C8_sync_counterexample :
    c8state.value ≠ c8refs.lastStateValue
    ∧ c8refs.refEvent = true
    ∧ c8state.isDirty = false
    ∧ (syncStep c8state (some "10") c8refs).fired = false := by decide

/-- C8 (amended): the change callback is invoked exactly when the internal
value changed since the last observed render, an originating event was
recorded, the widget is not dirty, and the internal value differs from the
externally supplied value prop; while `isDirty` both the callback-firing
path and the external-resync path are suppressed; and once the callback
fires the recorded event is cleared, so the immediately following
synchronization pass cannot fire again. -/
theorem C8_sync_amended :
    ∀ (s : InputState) (p : Option String) (r : ControllerRefs),
      ((syncStep s p r).fired = true ↔
        (s.value ≠ r.lastStateValue ∧ r.refEvent = true ∧ s.value ≠ p
          ∧ s.isDirty = false))
      ∧ (s.isDirty = true →
          (syncStep s p r).fired = false ∧ (syncStep s p r).resync = false)
      ∧ ((syncStep s p r).fired = true →
          (syncStep (syncStep s p r).state p (syncStep s p r).refs).fired
            = false) := by
  intro s p r
  refine ⟨?_, fun hd => ?_, fun hf => ?_⟩
  · simp [syncStep, Bool.and_eq_true, decide_eq_true_eq, and_assoc]
  · simp [syncStep, hd]
  · simp only [syncStep] at hf ⊢
    simp only [Bool.and_eq_true] at hf
    simp [hf]

/-- Concrete dirty state for the C8 witness. -/
def c8dirty : InputState :=
  { value := some "1"
    initialValue := none
    isDirty := true
    isDragging := false
    error := none
    isPressEnterToChange := true }

/-- Concrete non-dirty state for the C8 witness whose value changed and
differs from the prop, so the callback fires. -/
def c8fireState : InputState :=
  { value := some "7"
    initialValue := none
    isDirty := false
    isDragging := false
    error := none
    isPressEnterToChange := false }

/-- Concrete refs for the C8 witness: event recorded, dependencies stale. -/
def c8fireRefs : ControllerRefs :=
  { refEvent := true
    lastStateValue := some "5"
    lastProp := some "5" }

/-- Closed instance of the amended C8: suppression on a dirty state, and no
second firing right after a pass that fired. -/
theorem C8_sync_amended_witness :
    (syncStep c8dirty (some "1") c8fireRefs).fired = false
    ∧ (syncStep (syncStep c8fireState (some "9") c8fireRefs).state (some "9")
        (syncStep c8fireState (some "9") c8fireRefs).refs).fired = false :=
  ⟨((C8_sync_amended c8dirty (some "1") c8fireRefs).2.1 rfl).1,
    (C8_sync_amended c8fireState (some "9") c8fireRefs).2.2 (by decide)⟩

end InputControl
